import Mathlib

/-!
Shallow embedding of the MartaSant/lab1 playground site.

Sources embedded here:
- src/main.js: visited-page progress tracker backed by localStorage
  (FEATURE_PAGES, getVisitedPages, saveVisitedPages, markPageAsVisited,
  isPageVisited, getProgressStats).
- src/micro-interactions.js: button state machine (initStateButton),
  tooltip widget (initTooltips), shared one-per-session notification
  (showInteractionMessage).
- src/scroll-lab.js: scroll journey tracking (initScrollTracking).
- src/vue-lab.js: polling loop for the Vue CDN library (tryInitVue,
  initVueApp, showVueError).
- src/unnamed/part_000 (react-lab.js): site configurator pricing
  (calculatePriceRange).

Browser state (localStorage, sessionStorage, the DOM) is made explicit:
the persisted store is an `Option (List String)` value, per-widget DOM
effects become counters/fields of explicit state records, and event
listeners become step functions folded over lists of events.
-/

namespace Playground

/-! ### Progress tracker (src/main.js) -/

/-- One entry of the FEATURE_PAGES constant of src/main.js. -/
structure FeaturePage where
  id : String
  name : String
  url : String
deriving DecidableEq, Repr

/-- The FEATURE_PAGES constant (src/main.js lines 15-20). -/
def FEATURE_PAGES : List FeaturePage :=
  [ ⟨"micro-interactions", "Micro Interactions", "micro-interactions.html"⟩,
    ⟨"scroll-lab", "Scroll Storytelling", "scroll-lab.html"⟩,
    ⟨"react-lab", "React Lab", "react-lab.html"⟩,
    ⟨"vue-lab", "Vue Lab", "vue-lab.html"⟩ ]

/-- The ids of the known catalog pages. -/
def catalogIds : List String := FEATURE_PAGES.map (fun p => p.id)

/-- The localStorage slot under STORAGE_KEY: `none` is absent/empty storage,
`some l` a stored JSON array decoding to the list `l`. -/
abbrev Storage := Option (List String)

/-- getVisitedPages (src/main.js lines 32-40): the stored array if present,
otherwise the empty list (absent key and read/parse failure both yield []). -/
def getVisitedPages (st : Storage) : List String :=
  st.getD []

/-- saveVisitedPages (src/main.js lines 46-52): replaces the stored value
with the serialized list. -/
def saveVisitedPages (pages : List String) : Storage :=
  some pages

/-- markPageAsVisited (src/main.js lines 58-64): read the visited list;
if the pageId is not included, push it at the end and save.  There is no
check against the known catalog. -/
def markPageAsVisited (pageId : String) (st : Storage) : Storage :=
  let visited := getVisitedPages st
  if pageId ∈ visited then st
  else saveVisitedPages (visited ++ [pageId])

/-- isPageVisited (src/main.js lines 71-74). -/
def isPageVisited (pageId : String) (st : Storage) : Bool :=
  pageId ∈ getVisitedPages st

/-- A finite sequence of markPageAsVisited calls folded over the store. -/
def runMarks (calls : List String) (st : Storage) : Storage :=
  calls.foldl (fun s c => markPageAsVisited c s) st

/-- JavaScript Math.round on the exact rational value: floor(q + 1/2). -/
def jsRound (q : ℚ) : ℤ :=
  ⌊q + 1 / 2⌋

/-- Result record of getProgressStats (src/main.js lines 112-124). -/
structure ProgressStats where
  visitedCount : Nat
  total : Nat
  percentage : ℤ
  allVisited : Bool
deriving DecidableEq, Repr

/-- getProgressStats (src/main.js lines 112-124): visitedCount is the
length of the stored list, total the length of FEATURE_PAGES, percentage
Math.round((visitedCount / total) * 100) guarded by total > 0, and
allVisited the exact equality visitedCount === total. -/
def getProgressStats (st : Storage) : ProgressStats :=
  let visited := getVisitedPages st
  let total := FEATURE_PAGES.length
  let visitedCount := visited.length
  let percentage :=
    if 0 < total then jsRound (((visitedCount : ℚ) / (total : ℚ)) * 100) else 0
  ⟨visitedCount, total, percentage, visitedCount == total⟩

/-! ### Helper lemmas for the visited-set fold -/

/-- One markPageAsVisited call, seen through getVisitedPages. -/
lemma getVisitedPages_markPageAsVisited (pageId : String) (st : Storage) :
    getVisitedPages (markPageAsVisited pageId st) =
      if pageId ∈ getVisitedPages st then getVisitedPages st
      else getVisitedPages st ++ [pageId] := by
  by_cases h : pageId ∈ getVisitedPages st <;>
    simp_all [markPageAsVisited, saveVisitedPages, getVisitedPages]

/-- The pure list-level step of markPageAsVisited. -/
def markStep (v : List String) (c : String) : List String :=
  if c ∈ v then v else v ++ [c]

lemma getVisitedPages_runMarks (calls : List String) (st : Storage) :
    getVisitedPages (runMarks calls st) =
      calls.foldl markStep (getVisitedPages st) := by
  induction calls generalizing st with
  | nil => simp [runMarks]
  | cons c cs ih =>
      simp only [runMarks, List.foldl_cons] at *
      rw [ih (markPageAsVisited c st), getVisitedPages_markPageAsVisited]
      by_cases h : c ∈ getVisitedPages st <;> simp [markStep, h]

lemma mem_foldl_markStep (x : String) (calls : List String) (v : List String) :
    x ∈ calls.foldl markStep v ↔ x ∈ v ∨ x ∈ calls := by
  induction calls generalizing v with
  | nil => simp
  | cons c cs ih =>
      simp only [List.foldl_cons, ih, List.mem_cons]
      by_cases h : c ∈ v
      · simp [markStep, h]
        constructor
        · tauto
        · rintro (hx | rfl | hx) <;> tauto
      · simp [markStep, h, List.mem_append]
        tauto

lemma nodup_foldl_markStep (calls : List String) (v : List String)
    (hv : v.Nodup) : (calls.foldl markStep v).Nodup := by
  induction calls generalizing v with
  | nil => simpa
  | cons c cs ih =>
      simp only [List.foldl_cons]
      apply ih
      by_cases h : c ∈ v
      · simpa [markStep, h]
      · simp [markStep, h, List.nodup_append, hv]

/-! ### Button state machine (src/micro-interactions.js, initStateButton) -/

/-- DOM events the state button listens to. -/
inductive BtnEvent
  | mouseenter
  | mouseleave
  | click
deriving DecidableEq, Repr

/-- Closure state of initStateButton plus the DOM effects it causes.
currentState indexes the states array (0 Idle, 1 Hovered, 2 Clicked);
displayState is the index last applied by updateButtonState (the button
renders as state 0 initially); messageRequests counts calls to
showInteractionMessage; easterEggRequests counts scheduled showEasterEgg
calls. -/
structure BtnState where
  currentState : Nat
  displayState : Nat
  clickCount : Nat
  messageRequests : Nat
  easterEggRequests : Nat
deriving DecidableEq, Repr

/-- The closure state right after initStateButton runs. -/
def initBtnState : BtnState := ⟨0, 0, 0, 0, 0⟩

/-- The three event listeners of initStateButton (src/micro-interactions.js
lines 30-64).  mouseenter moves Idle to Hovered; click always increments
clickCount, moves Hovered to Clicked (requesting the interaction message),
and schedules the easter egg when clickCount is exactly 5; mouseleave
resets Hovered to Idle. -/
def btnStep (s : BtnState) : BtnEvent → BtnState
  | .mouseenter =>
      if s.currentState = 0 then { s with currentState := 1, displayState := 1 } else s
  | .mouseleave =>
      if s.currentState = 1 then { s with currentState := 0, displayState := 0 } else s
  | .click =>
      let s1 := { s with clickCount := s.clickCount + 1 }
      let s2 :=
        if s1.currentState = 1 then
          { s1 with currentState := 2, displayState := 2,
                    messageRequests := s1.messageRequests + 1 }
        else s1
      if s2.clickCount = 5 then
        { s2 with easterEggRequests := s2.easterEggRequests + 1 }
      else s2

/-- One page load of the button widget: fold the listeners over an event
sequence. -/
def runBtn (es : List BtnEvent) : BtnState := es.foldl btnStep initBtnState

/-! ### Shared one-per-session notification (showInteractionMessage) -/

/-- Session-scoped state of showInteractionMessage: messageShown models
presence of the interaction-message-shown key in sessionStorage,
bannersShown counts banner elements ever appended to document.body. -/
structure NotifState where
  messageShown : Bool
  bannersShown : Nat
deriving DecidableEq, Repr

/-- A fresh browser session: the sessionStorage key is absent. -/
def initNotifState : NotifState := ⟨false, 0⟩

/-- showInteractionMessage (src/micro-interactions.js lines 177-203):
returns immediately when the session flag is set; otherwise appends a
banner and sets the flag.  The message text does not influence control
flow. -/
def showInteractionMessage (message : String) (s : NotifState) : NotifState :=
  if s.messageShown then s
  else { messageShown := true, bannersShown := s.bannersShown + 1 }

/-- A sequence of notification requests issued within one session. -/
def runNotifs (msgs : List String) : NotifState :=
  msgs.foldl (fun s m => showInteractionMessage m s) initNotifState

/-! ### Tooltip widget (src/micro-interactions.js, initTooltips)

initTooltips attaches, per trigger element, a closure with its own
tooltip variable.  Two representative triggers A and B model any two
distinct trigger elements; document.body holds the created overlay
elements, identified by fresh numeric ids. -/

/-- The two representative tooltip trigger elements. -/
inductive TooltipTrigger
  | A
  | B
deriving DecidableEq, Repr

/-- Pointer events on a tooltip trigger. -/
inductive TooltipEvent
  | enter (t : TooltipTrigger)
  | leave (t : TooltipTrigger)
deriving DecidableEq, Repr

/-- varA and varB are the per-trigger closure variables named tooltip in
the source; nextId generates fresh overlay element identities; doc lists
the overlay elements currently appended to document.body. -/
structure TooltipState where
  varA : Option Nat
  varB : Option Nat
  nextId : Nat
  doc : List Nat
deriving DecidableEq, Repr

/-- State right after initTooltips runs: both closure variables null, no
overlay in the document. -/
def initTooltipState : TooltipState := ⟨none, none, 0, []⟩

/-- The mouseenter and mouseleave listeners of initTooltips
(src/micro-interactions.js lines 144-166).  mouseenter creates a new
overlay, appends it to the body and stores it in that trigger-instance
closure variable; mouseleave removes the overlay stored in that variable,
if any, and nulls the variable. -/
def tooltipStep (s : TooltipState) : TooltipEvent → TooltipState
  | .enter .A =>
      { s with varA := some s.nextId, nextId := s.nextId + 1, doc := s.doc ++ [s.nextId] }
  | .enter .B =>
      { s with varB := some s.nextId, nextId := s.nextId + 1, doc := s.doc ++ [s.nextId] }
  | .leave .A =>
      match s.varA with
      | some o => { s with varA := none, doc := s.doc.erase o }
      | none => s
  | .leave .B =>
      match s.varB with
      | some o => { s with varB := none, doc := s.doc.erase o }
      | none => s

/-- One page load of the tooltip widget. -/
def runTooltips (es : List TooltipEvent) : TooltipState :=
  es.foldl tooltipStep initTooltipState

/-- A single event is browser-realizable in a state: mouseenter does not
refire on a trigger the pointer is already inside, so enter on a trigger
requires its closure variable to be null.  leave is always allowed (the
listener itself guards against a null variable). -/
def eventAllowed (s : TooltipState) : TooltipEvent → Bool
  | .enter .A => s.varA.isNone
  | .enter .B => s.varB.isNone
  | .leave _ => true

/-- Browser-realizable event sequences from a given state. -/
def legalFrom (s : TooltipState) : List TooltipEvent → Bool
  | [] => true
  | e :: es => eventAllowed s e && legalFrom (tooltipStep s e) es

/-- The overlays owned by the currently hovered trigger instances. -/
def ownedOverlays (s : TooltipState) : List Nat :=
  s.varA.toList ++ s.varB.toList

/-- Number of triggers currently hovered (closure variable non-null). -/
def hoveredCount (s : TooltipState) : Nat :=
  (ownedOverlays s).length

/-! ### Scroll journey tracking (src/scroll-lab.js, initScrollTracking) -/

/-- One scroll event with the document metrics read by the handler. -/
structure ScrollEvent where
  scrollTop : ℤ
  scrollHeight : ℤ
  clientHeight : ℤ
deriving DecidableEq, Repr

/-- distanceFromBottom as computed in the handler (src/scroll-lab.js
line 69). -/
def distanceFromBottom (e : ScrollEvent) : ℤ :=
  e.scrollHeight - (e.scrollTop + e.clientHeight)

/-- Module state of src/scroll-lab.js: the two flags plus a count of
showEasterEgg requests (the setTimeout scheduled at line 81). -/
structure ScrollState where
  hasReachedBottom : Bool
  hasReturnedToTop : Bool
  easterEggRequests : Nat
deriving DecidableEq, Repr

/-- Page-load initial state: both flags false. -/
def initScrollState : ScrollState := ⟨false, false, 0⟩

/-- The scroll listener of initScrollTracking (src/scroll-lab.js lines
61-88): set hasReachedBottom when within 50 units of the bottom; then,
when hasReachedBottom holds, scrollTop is within 100 units of the top and
hasReturnedToTop is still false, set hasReturnedToTop and request the
discovery overlay. -/
def scrollStep (s : ScrollState) (e : ScrollEvent) : ScrollState :=
  let rb :=
    if decide (distanceFromBottom e < 50) && !s.hasReachedBottom then true
    else s.hasReachedBottom
  if rb && decide (e.scrollTop < 100) && !s.hasReturnedToTop then
    { hasReachedBottom := rb, hasReturnedToTop := true,
      easterEggRequests := s.easterEggRequests + 1 }
  else { s with hasReachedBottom := rb }

/-- One page load of the scroll tracker. -/
def runScroll (es : List ScrollEvent) : ScrollState :=
  es.foldl scrollStep initScrollState

/-! ### Vue lab polling loop (src/vue-lab.js) -/

/-- Environment the polling loop observes.  vueDefined models whether the
global Vue symbol exists; createAppAvailable and mountSucceeds model the
remaining checks of initVueApp; protocol is window.location.protocol. -/
structure VueEnv where
  rootPresent : Bool
  vueDefined : Bool
  createAppAvailable : Bool
  mountSucceeds : Bool
  protocol : String
deriving DecidableEq, Repr

/-- The diagnostic panel markup produced by showVueError (src/vue-lab.js
lines 161-188): its content is determined by the isLocalFile protocol
check and the optional caught error message. -/
structure VueErrorPanel where
  isLocalFile : Bool
  caughtMessage : Option String
deriving DecidableEq, Repr

/-- showVueError: isLocalFile is the deterministic check
window.location.protocol equals the file scheme (src/vue-lab.js
line 162). -/
def showVueError (protocol : String) (errorMessage : Option String) : VueErrorPanel :=
  ⟨protocol == "file:", errorMessage⟩

/-- maxAttempts constant (src/vue-lab.js line 192). -/
def maxAttempts : Nat := 10

/-- initVueApp (src/vue-lab.js lines 13-156), restricted to what it
returns and what it writes into the vue-app root element.  The result is
(success, root content, number of showVueError invocations in this call);
the root content is some panel when the fallback markup currently
replaces the root markup.  Missing root: log and fail.  Vue symbol
absent, Vue.createApp absent, or mount throwing: render the fallback
panel into the root and fail.  Otherwise the app mounts and the call
succeeds. -/
def initVueApp (env : VueEnv) (root : Option VueErrorPanel) :
    Bool × Option VueErrorPanel × Nat :=
  if !env.rootPresent then (false, root, 0)
  else if !env.vueDefined then (false, some (showVueError env.protocol none), 1)
  else if !env.createAppAvailable then (false, some (showVueError env.protocol none), 1)
  else if env.mountSucceeds then (true, root, 0)
  else (false, some (showVueError env.protocol (some "mount error")), 1)

/-- tryInitVue (src/vue-lab.js lines 194-212), run with explicit fuel
(each recursive call is one scheduled 300ms retry).  State: attempt
count, root content, total showVueError invocations.  Increment the
attempt count, run initVueApp; on failure retry while the count is below
maxAttempts and Vue is still undefined; at or past maxAttempts give up
and, when the root exists and Vue is still undefined, render the fallback
panel once more. -/
def tryInitVue (env : VueEnv) :
    Nat → Nat → Option VueErrorPanel → Nat → Nat × Option VueErrorPanel × Nat
  | 0, attempts, root, renders => (attempts, root, renders)
  | fuel + 1, attempts, root, renders =>
      let attempts1 := attempts + 1
      let r := initVueApp env root
      let root1 := r.2.1
      let renders1 := renders + r.2.2
      if r.1 then (attempts1, root1, renders1)
      else if attempts1 < maxAttempts && !env.vueDefined then
        tryInitVue env fuel attempts1 root1 renders1
      else if maxAttempts ≤ attempts1 then
        if env.rootPresent && !env.vueDefined then
          (attempts1, some (showVueError env.protocol none), renders1 + 1)
        else (attempts1, root1, renders1)
      else (attempts1, root1, renders1)

/-! ### React site configurator pricing (src/unnamed/part_000) -/

/-- The configuration state of the SiteConfigurator component: the style
and layout select values plus the three feature checkboxes (the keys of
config.features in insertion order: animations, contactForm,
blogSection). -/
structure SiteConfig where
  style : String
  layout : String
  animations : Bool
  contactForm : Bool
  blogSection : Bool
deriving DecidableEq, Repr

/-- calculatePriceRange (src/unnamed/part_000 lines 70-86): base 1000,
plus 200 for the Colorful style, plus 300 for the Elegant style, plus 500
for the Multi-page layout, plus 150 for each enabled feature, iterated in
Object.values order. -/
def calculatePriceRange (config : SiteConfig) : Nat :=
  let p0 := 1000
  let p1 := if config.style == "Colorful" then p0 + 200 else p0
  let p2 := if config.style == "Elegant" then p1 + 300 else p1
  let p3 := if config.layout == "Multi-page" then p2 + 500 else p2
  let p4 := if config.animations then p3 + 150 else p3
  let p5 := if config.contactForm then p4 + 150 else p4
  if config.blogSection then p5 + 150 else p5

/-- The upper bound of the displayed price range string
(src/unnamed/part_000 line 215): calculatePriceRange() + 500. -/
def displayedPriceUpper (config : SiteConfig) : Nat :=
  calculatePriceRange config + 500

/-- The three style select options (src/unnamed/part_000 lines 120-122). -/
inductive SiteStyle
  | Minimal
  | Colorful
  | Elegant
deriving DecidableEq, Repr

/-- The two layout select options (src/unnamed/part_000 lines 135-136). -/
inductive SiteLayout
  | SinglePage
  | MultiPage
deriving DecidableEq, Repr

/-- The option value string of each style. -/
def styleValue : SiteStyle → String
  | .Minimal => "Minimal"
  | .Colorful => "Colorful"
  | .Elegant => "Elegant"

/-- The option value string of each layout. -/
def layoutValue : SiteLayout → String
  | .SinglePage => "Single page"
  | .MultiPage => "Multi-page"

/-- Modelled from the claim wording: the closed-form price a
configuration should cost — 1000 base, style surcharge, layout surcharge,
150 per enabled feature. -/
def specPrice (st : SiteStyle) (ly : SiteLayout) (a c b : Bool) : Nat :=
  1000 +
    (match st with
     | .Minimal => 0
     | .Colorful => 200
     | .Elegant => 300) +
    (match ly with
     | .SinglePage => 0
     | .MultiPage => 500) +
    150 * (a.toNat + c.toNat + b.toNat)

/-! ### Rounding helper -/

lemma jsRound_intCast (n : ℤ) : jsRound ((n : ℚ)) = n := by
  unfold jsRound
  rw [Int.floor_int_add]
  norm_num

/-! ## Claims -/

/-- C1, counterexample: the claim says markPageAsVisited with a pageId
outside the known catalog leaves the persisted set unchanged; but the
code never consults the catalog, so the unknown id landing is appended
to empty storage. -/
theorem markPage_unknownId_changes_storage :
    "landing" ∉ catalogIds ∧
    getVisitedPages (markPageAsVisited "landing" none) = ["landing"] ∧
    getVisitedPages (markPageAsVisited "landing" none) ≠ getVisitedPages none := by
  decide

/-- C1, amended: markPageAsVisited ignores the catalog; it is a no-op
exactly when the pageId is already in the persisted set, and otherwise
appends the id — known or unknown — and persists the result. -/
theorem markPageAsVisited_noop_iff_present (pageId : String) (st : Storage) :
    (pageId ∈ getVisitedPages st → markPageAsVisited pageId st = st) ∧
    (pageId ∉ getVisitedPages st →
      getVisitedPages (markPageAsVisited pageId st) =
        getVisitedPages st ++ [pageId]) := by
  constructor
  · intro h
    simp [markPageAsVisited, h]
  · intro h
    rw [getVisitedPages_markPageAsVisited]
    simp [h]

/-- C1, witness: marking the unknown id landing on a store holding
scroll-lab appends it. -/
theorem markPageAsVisited_noop_iff_present_witness :
    getVisitedPages (markPageAsVisited "landing" (some ["scroll-lab"])) =
      getVisitedPages (some ["scroll-lab"]) ++ ["landing"] :=
  (markPageAsVisited_noop_iff_present "landing" (some ["scroll-lab"])).2 (by decide)

/-- C4: starting from empty storage, any finite sequence of
markPageAsVisited calls with valid catalog ids leaves a duplicate-free
stored list whose members are exactly the ids passed, independent of call
order and repetition (membership in the call list is all that matters). -/
theorem runMarks_set_semantics (calls : List String)
    (h : ∀ c ∈ calls, c ∈ catalogIds) :
    (getVisitedPages (runMarks calls none)).Nodup ∧
    ∀ x, x ∈ getVisitedPages (runMarks calls none) ↔ x ∈ calls := by
  rw [getVisitedPages_runMarks]
  constructor
  · exact nodup_foldl_markStep calls _ (by simp [getVisitedPages])
  · intro x
    rw [mem_foldl_markStep]
    simp [getVisitedPages]

/-- C4, witness: marking scroll-lab, react-lab, scroll-lab from empty
storage yields a duplicate-free store containing scroll-lab. -/
theorem runMarks_set_semantics_witness :
    (getVisitedPages (runMarks ["scroll-lab", "react-lab", "scroll-lab"] none)).Nodup ∧
    "scroll-lab" ∈ getVisitedPages (runMarks ["scroll-lab", "react-lab", "scroll-lab"] none) :=
  ⟨(runMarks_set_semantics ["scroll-lab", "react-lab", "scroll-lab"] (by decide)).1,
   ((runMarks_set_semantics ["scroll-lab", "react-lab", "scroll-lab"] (by decide)).2
      "scroll-lab").mpr (by decide)⟩

/-- C5: for any store whose visited count is at most 4, getProgressStats
reports total 4, percentage equal to the rounded value of
100 * visitedCount / total (concretely 25 * visitedCount), and allVisited
exactly when visitedCount is 4; empty storage yields the record
(0, 4, 0, false). -/
lemma getProgressStats_percentage (st : Storage) :
    (getProgressStats st).percentage = 25 * ((getVisitedPages st).length : ℤ) := by
  have harg : (((getVisitedPages st).length : ℚ) / (4 : ℚ)) * 100 =
      ((25 * ((getVisitedPages st).length : ℤ) : ℤ) : ℚ) := by
    push_cast
    ring
  have hp : (getProgressStats st).percentage =
      jsRound ((((getVisitedPages st).length : ℚ) / (4 : ℚ)) * 100) := by
    simp [getProgressStats, FEATURE_PAGES]
  rw [hp, harg, jsRound_intCast]

theorem progressStats_formula (st : Storage)
    (h : (getVisitedPages st).length ≤ 4) :
    (getProgressStats st).total = 4 ∧
    (getProgressStats st).visitedCount = (getVisitedPages st).length ∧
    (getProgressStats st).percentage =
      jsRound (100 * ((getVisitedPages st).length : ℚ) / 4) ∧
    (getProgressStats st).percentage = 25 * ((getVisitedPages st).length : ℤ) ∧
    ((getProgressStats st).allVisited = true ↔ (getVisitedPages st).length = 4) ∧
    getProgressStats none = ⟨0, 4, 0, false⟩ := by
  have hp := getProgressStats_percentage st
  refine ⟨by simp [getProgressStats, FEATURE_PAGES], by simp [getProgressStats],
    ?_, hp, by simp [getProgressStats, FEATURE_PAGES], ?_⟩
  · rw [hp]
    have harg : 100 * ((getVisitedPages st).length : ℚ) / 4 =
        ((25 * ((getVisitedPages st).length : ℤ) : ℤ) : ℚ) := by
      push_cast
      ring
    rw [harg, jsRound_intCast]
  · have h0 : (getProgressStats none).percentage = 0 := by
      simpa [getVisitedPages] using getProgressStats_percentage none
    have heta : getProgressStats none =
        ⟨(getProgressStats none).visitedCount, (getProgressStats none).total,
          (getProgressStats none).percentage, (getProgressStats none).allVisited⟩ := rfl
    rw [heta, h0]
    rfl

/-- C5, witness: a store holding exactly scroll-lab has percentage 25 and
allVisited false. -/
theorem progressStats_formula_witness :
    (getProgressStats (some ["scroll-lab"])).percentage =
      25 * ((getVisitedPages (some ["scroll-lab"])).length : ℤ) ∧
    ((getProgressStats (some ["scroll-lab"])).allVisited = true ↔
      (getVisitedPages (some ["scroll-lab"])).length = 4) :=
  ⟨(progressStats_formula (some ["scroll-lab"]) (by decide)).2.2.2.1,
   (progressStats_formula (some ["scroll-lab"]) (by decide)).2.2.2.2.1⟩

/-! ### Button state machine lemmas -/

lemma btnStep_clickCount (s : BtnState) (e : BtnEvent) :
    (btnStep s e).clickCount = s.clickCount + (if e = .click then 1 else 0) := by
  cases e <;> simp [btnStep] <;> split_ifs <;> simp

/-- Reachable-state invariant of the button widget: the easter egg has
been scheduled exactly once as soon as the click counter passed 5. -/
def btnInv (s : BtnState) : Prop :=
  s.easterEggRequests = if 5 ≤ s.clickCount then 1 else 0

lemma btnStep_inv {s : BtnState} (hs : btnInv s) (e : BtnEvent) :
    btnInv (btnStep s e) := by
  cases e <;> simp only [btnInv, btnStep] at hs ⊢ <;> split_ifs <;>
    (try simp_all) <;> omega

lemma btnInv_foldl (es : List BtnEvent) (s : BtnState) (hs : btnInv s) :
    btnInv (es.foldl btnStep s) := by
  induction es generalizing s with
  | nil => simpa
  | cons e es ih => exact ih _ (btnStep_inv hs e)

lemma clickCount_foldl (es : List BtnEvent) (s : BtnState) :
    (es.foldl btnStep s).clickCount = s.clickCount + es.count .click := by
  induction es generalizing s with
  | nil => simp
  | cons e es ih =>
      rw [List.foldl_cons, ih, btnStep_clickCount]
      cases e <;> simp [List.count_cons] <;> omega

/-- C6: in any event sequence of one page load, the click counter equals
the number of click events, and the celebratory overlay has been
scheduled exactly once when at least five clicks occurred and never
otherwise — so it fires on the fifth click only and a sixth or later
click cannot re-trigger it. -/
theorem stateButton_easterEgg_exactly_at_five (es : List BtnEvent) :
    (runBtn es).clickCount = es.count .click ∧
    (runBtn es).easterEggRequests = if 5 ≤ es.count .click then 1 else 0 := by
  have h1 := clickCount_foldl es initBtnState
  have h2 := btnInv_foldl es initBtnState (by simp [btnInv, initBtnState])
  simp only [btnInv] at h2
  constructor
  · simpa [runBtn, initBtnState] using h1
  · rw [runBtn] at *
    rw [h2, h1]
    simp [initBtnState]

/-- C9: a click delivered in the Idle state still increments the click
counter while leaving the rendered state, the state index and the
interaction-message count unchanged; five clicks delivered in Idle state
schedule the easter egg once although the button never left Idle. -/
theorem idleClick_counts_without_display_change :
    (∀ s : BtnState, s.currentState = 0 →
      (btnStep s .click).currentState = 0 ∧
      (btnStep s .click).displayState = s.displayState ∧
      (btnStep s .click).messageRequests = s.messageRequests ∧
      (btnStep s .click).clickCount = s.clickCount + 1) ∧
    runBtn (List.replicate 5 .click) = ⟨0, 0, 5, 0, 1⟩ := by
  constructor
  · intro s hs
    simp [btnStep, hs]
    split_ifs <;> simp
  · decide

/-- C9, witness: one Idle-state click from the initial state. -/
theorem idleClick_counts_without_display_change_witness :
    (btnStep initBtnState .click).currentState = 0 ∧
    (btnStep initBtnState .click).displayState = initBtnState.displayState ∧
    (btnStep initBtnState .click).messageRequests = initBtnState.messageRequests ∧
    (btnStep initBtnState .click).clickCount = initBtnState.clickCount + 1 :=
  idleClick_counts_without_display_change.1 initBtnState rfl

/-! ### Shared notification lemmas -/

lemma foldl_showInteractionMessage_shown (msgs : List String) (s : NotifState)
    (hs : s.messageShown = true) :
    msgs.foldl (fun t m => showInteractionMessage m t) s = s := by
  induction msgs with
  | nil => rfl
  | cons m ms ih =>
      rw [List.foldl_cons]
      have hstep : showInteractionMessage m s = s := by
        simp [showInteractionMessage, hs]
      rw [hstep, ih]

/-- C7: within one session, at most one banner is ever shown — the
banner count after any request sequence is the minimum of the sequence
length and 1, the session flag is set exactly when at least one request
was made, and a request made while the flag is set returns the state
unchanged whatever the message is. -/
theorem interactionMessage_once_per_session (msgs : List String) (m : String) (n : Nat) :
    (runNotifs msgs).bannersShown = min msgs.length 1 ∧
    (runNotifs msgs).messageShown = !msgs.isEmpty ∧
    showInteractionMessage m ⟨true, n⟩ = ⟨true, n⟩ := by
  have key : ∀ (m0 : String) (ms : List String), runNotifs (m0 :: ms) = ⟨true, 1⟩ := by
    intro m0 ms
    rw [runNotifs, List.foldl_cons]
    have h1 : showInteractionMessage m0 initNotifState = ⟨true, 1⟩ := rfl
    rw [h1, foldl_showInteractionMessage_shown ms ⟨true, 1⟩ rfl]
  cases msgs with
  | nil => exact ⟨rfl, rfl, by simp [showInteractionMessage]⟩
  | cons m0 ms =>
      rw [key m0 ms]
      refine ⟨?_, rfl, by simp [showInteractionMessage]⟩
      simp [Nat.min_def]

/-! ### Tooltip lemmas -/

lemma tooltipStep_perm (s : TooltipState) (e : TooltipEvent)
    (hs : s.doc.Perm (ownedOverlays s)) (he : eventAllowed s e = true) :
    (tooltipStep s e).doc.Perm (ownedOverlays (tooltipStep s e)) := by
  cases e with
  | enter t =>
      cases t with
      | A =>
          have hA : s.varA = none := by
            simpa [eventAllowed, Option.isNone_iff_eq_none] using he
          simp only [tooltipStep, ownedOverlays, hA] at hs ⊢
          simp only [Option.toList_none, List.nil_append] at hs
          have h2 : (s.doc ++ [s.nextId]).Perm (s.varB.toList ++ [s.nextId]) :=
            hs.append_right _
          have h3 : (s.varB.toList ++ [s.nextId]).Perm ([s.nextId] ++ s.varB.toList) :=
            List.perm_append_comm
          simpa using h2.trans h3
      | B =>
          have hB : s.varB = none := by
            simpa [eventAllowed, Option.isNone_iff_eq_none] using he
          simp only [tooltipStep, ownedOverlays, hB] at hs ⊢
          simp only [Option.toList_none, List.append_nil] at hs
          simpa using hs.append_right [s.nextId]
  | leave t =>
      cases t with
      | A =>
          cases hA : s.varA with
          | none => simpa [tooltipStep, hA] using hs
          | some o =>
              simp only [tooltipStep, hA, ownedOverlays] at hs ⊢
              have h1 := hs.erase o
              simpa [List.erase_cons_head] using h1
      | B =>
          cases hB : s.varB with
          | none => simpa [tooltipStep, hB] using hs
          | some o =>
              simp only [tooltipStep, hB, ownedOverlays] at hs ⊢
              have h1 := hs.erase o
              cases hA : s.varA with
              | none => simpa [hA, List.erase_cons_head] using h1
              | some a =>
                  by_cases hao : a = o
                  · subst hao
                    simpa [hA, List.erase_cons_head] using h1
                  · simpa [hA, List.erase_cons, hao] using h1

lemma tooltipPerm_run (es : List TooltipEvent) (s : TooltipState)
    (hs : s.doc.Perm (ownedOverlays s)) (hl : legalFrom s es = true) :
    (es.foldl tooltipStep s).doc.Perm (ownedOverlays (es.foldl tooltipStep s)) := by
  induction es generalizing s with
  | nil => simpa
  | cons e es ih =>
      rw [legalFrom, Bool.and_eq_true] at hl
      exact ih _ (tooltipStep_perm s e hs hl.1) hl.2

/-- C2, counterexample: pointer-enter on trigger A and then pointer-enter
on trigger B, with no pointer-leave on A in between, is a legal sequence
after which two tooltip overlay elements are simultaneously present in
the document — each trigger-instance closure holds its own overlay. -/
theorem tooltip_two_overlays_after_double_enter :
    legalFrom initTooltipState [.enter .A, .enter .B] = true ∧
    (runTooltips [.enter .A, .enter .B]).doc = [0, 1] ∧
    2 ≤ (runTooltips [.enter .A, .enter .B]).doc.length := by
  decide

/-- C2, amended: in every browser-realizable event sequence the overlays
present in the document are exactly the overlays owned by the currently
hovered trigger instances — one per hovered trigger.  Hovering B without
leaving A therefore yields one overlay per trigger (two in total), never
a leak beyond that, and leaving a trigger removes exactly its own
overlay. -/
theorem tooltip_one_overlay_per_hovered_trigger (es : List TooltipEvent)
    (hl : legalFrom initTooltipState es = true) :
    (runTooltips es).doc.Perm (ownedOverlays (runTooltips es)) ∧
    (runTooltips es).doc.length = hoveredCount (runTooltips es) := by
  have h := tooltipPerm_run es initTooltipState
    (by simp [initTooltipState, ownedOverlays]) hl
  exact ⟨h, h.length_eq⟩

/-- C2, witness: after enter A, enter B, leave A, the single remaining
overlay is the one owned by B. -/
theorem tooltip_one_overlay_per_hovered_trigger_witness :
    (runTooltips [.enter .A, .enter .B, .leave .A]).doc.Perm
      (ownedOverlays (runTooltips [.enter .A, .enter .B, .leave .A])) ∧
    (runTooltips [.enter .A, .enter .B, .leave .A]).doc.length =
      hoveredCount (runTooltips [.enter .A, .enter .B, .leave .A]) :=
  tooltip_one_overlay_per_hovered_trigger [.enter .A, .enter .B, .leave .A] (by decide)

/-! ### Scroll journey lemmas -/

lemma scrollStep_rb (s : ScrollState) (e : ScrollEvent) :
    (scrollStep s e).hasReachedBottom =
      (s.hasReachedBottom || decide (distanceFromBottom e < 50)) := by
  unfold scrollStep
  cases hb : s.hasReachedBottom <;>
    cases hd : decide (distanceFromBottom e < 50) <;>
      simp [hb, hd] <;> split_ifs <;> simp

lemma scrollStep_rt (s : ScrollState) (e : ScrollEvent) :
    (scrollStep s e).hasReturnedToTop =
      (s.hasReturnedToTop ||
        ((s.hasReachedBottom || decide (distanceFromBottom e < 50)) &&
          decide (e.scrollTop < 100))) := by
  unfold scrollStep
  cases hb : s.hasReachedBottom <;>
    cases ht : s.hasReturnedToTop <;>
      cases hd : decide (distanceFromBottom e < 50) <;>
        cases htp : decide (e.scrollTop < 100) <;>
          simp [hb, ht, hd, htp]

/-- Reachable-state invariant of the scroll tracker: the
returned-to-top flag implies the reached-bottom flag, and the discovery
overlay has been requested exactly once as soon as the returned-to-top
flag holds. -/
def scrollInv (s : ScrollState) : Prop :=
  (s.hasReturnedToTop = true → s.hasReachedBottom = true) ∧
  s.easterEggRequests = if s.hasReturnedToTop = true then 1 else 0

lemma scrollStep_inv {s : ScrollState} (hs : scrollInv s) (e : ScrollEvent) :
    scrollInv (scrollStep s e) := by
  obtain ⟨h1, h2⟩ := hs
  unfold scrollInv scrollStep
  cases hb : s.hasReachedBottom <;>
    cases ht : s.hasReturnedToTop <;>
      cases hd : decide (distanceFromBottom e < 50) <;>
        cases htp : decide (e.scrollTop < 100) <;>
          simp_all

lemma scrollInv_run (es : List ScrollEvent) :
    scrollInv (runScroll es) := by
  rw [runScroll]
  generalize hinit : initScrollState = s0
  have hs0 : scrollInv s0 := by
    rw [← hinit]
    exact ⟨by simp [initScrollState], by simp [initScrollState]⟩
  clear hinit
  induction es generalizing s0 with
  | nil => simpa
  | cons e es ih => exact ih _ (scrollStep_inv hs0 e)

/-- C8: appending one scroll event updates hasReachedBottom to its old
value or-ed with the within-50-of-bottom test, and hasReturnedToTop to
its old value or-ed with the conjunction of the updated
hasReachedBottom and the within-100-of-top test — so both flags are
monotone one-shot, the second can rise only when the first holds; along
any trace the returned-to-top flag implies the reached-bottom flag and
the discovery overlay has been requested exactly once when the
returned-to-top flag holds (zero times before), even when the
bottom-then-top sequence repeats. -/
theorem scrollJourney_flags_one_shot (es : List ScrollEvent) (e : ScrollEvent) :
    (runScroll (es ++ [e])).hasReachedBottom =
      ((runScroll es).hasReachedBottom || decide (distanceFromBottom e < 50)) ∧
    (runScroll (es ++ [e])).hasReturnedToTop =
      ((runScroll es).hasReturnedToTop ||
        (((runScroll es).hasReachedBottom || decide (distanceFromBottom e < 50)) &&
          decide (e.scrollTop < 100))) ∧
    ((runScroll es).hasReturnedToTop = true → (runScroll es).hasReachedBottom = true) ∧
    (runScroll es).easterEggRequests =
      (if (runScroll es).hasReturnedToTop = true then 1 else 0) ∧
    runScroll [⟨1000, 2000, 970⟩, ⟨0, 2000, 970⟩, ⟨1000, 2000, 970⟩, ⟨0, 2000, 970⟩] =
      ⟨true, true, 1⟩ := by
  have hr : runScroll (es ++ [e]) = scrollStep (runScroll es) e := by
    simp [runScroll, List.foldl_append]
  have hinv := scrollInv_run es
  exact ⟨by rw [hr]; exact scrollStep_rb _ _,
    by rw [hr]; exact scrollStep_rt _ _,
    hinv.1, hinv.2, by decide⟩

/-- C8, witness: a bottom-reaching scroll followed by a top-returning
scroll raises both flags in order and requests the overlay once. -/
theorem scrollJourney_flags_one_shot_witness :
    (runScroll [⟨1000, 2000, 970⟩, ⟨0, 2000, 970⟩]).hasReachedBottom = true ∧
    (runScroll [⟨1000, 2000, 970⟩, ⟨0, 2000, 970⟩]).easterEggRequests =
      (if (runScroll [⟨1000, 2000, 970⟩, ⟨0, 2000, 970⟩]).hasReturnedToTop = true
        then 1 else 0) :=
  ⟨(scrollJourney_flags_one_shot [⟨1000, 2000, 970⟩, ⟨0, 2000, 970⟩]
      ⟨0, 2000, 970⟩).2.2.1 (by decide),
   (scrollJourney_flags_one_shot [⟨1000, 2000, 970⟩, ⟨0, 2000, 970⟩]
      ⟨0, 2000, 970⟩).2.2.2.1⟩

/-! ### Vue polling theorems -/

/-- The environment of a page where Vue never loads: the root element
exists, the Vue symbol never appears, and the page was opened over a
network scheme. -/
def vueAbsentEnv : VueEnv := ⟨true, false, false, false, "https:"⟩

/-- C3, counterexample: the claim says the fallback panel is rendered
exactly once when Vue is still absent after the maximum attempts; but
initVueApp renders the panel on every one of the 10 failed attempts and
the give-up branch renders it an 11th time, so the render count of the
polling chain is 11, not 1. -/
theorem vueFallback_rendered_eleven_times :
    (tryInitVue vueAbsentEnv 20 0 none 0).2.2 = 11 ∧
    (tryInitVue vueAbsentEnv 20 0 none 0).2.2 ≠ 1 := by
  decide

/-- C3, amended: when the Vue symbol is still absent after the maximum
of 10 poll attempts (at the fixed 300ms interval), the fallback panel
markup is written into the root element 11 times — once per failed
attempt plus once on giving up; each write replaces the whole root
content, so exactly one fallback panel is present afterwards, and the
hint it contains is chosen deterministically by comparing the loading
scheme with the file protocol. -/
theorem vueFallback_polling_behavior (protocol : String) (ca m : Bool) :
    tryInitVue ⟨true, false, ca, m, protocol⟩ 20 0 none 0 =
      (10, some (showVueError protocol none), 11) ∧
    (showVueError protocol none).isLocalFile = (protocol == "file:") ∧
    (showVueError "file:" none).isLocalFile = true ∧
    (showVueError "https:" none).isLocalFile = false :=
  ⟨rfl, rfl, rfl, rfl⟩

/-! ### React configurator pricing theorem -/

/-- C10: for every reachable configuration (a style option, a layout
option and the three feature flags) the computed price is the closed
form 1000 plus 200 for Colorful or 300 for Elegant, plus 500 for
Multi-page, plus 150 per enabled feature; the displayed upper bound of
the price range is always that value plus 500. -/
theorem configuratorPrice_closed_form (st : SiteStyle) (ly : SiteLayout)
    (a c b : Bool) :
    calculatePriceRange ⟨styleValue st, layoutValue ly, a, c, b⟩ =
      specPrice st ly a c b ∧
    displayedPriceUpper ⟨styleValue st, layoutValue ly, a, c, b⟩ =
      specPrice st ly a c b + 500 := by
  cases st <;> cases ly <;> cases a <;> cases c <;> cases b <;>
    exact ⟨by decide, by decide⟩

end Playground
